import Mathlib

/-!
# Verification of the beads_rust storage engine (`src/storage/sqlite.rs`)

A shallow embedding of the SQLite storage layer of the `beads_rust` issue
tracker.  The SQLite tables (`issues`, `events`, `dirty_issues`,
`blocked_issues_cache`, `labels`, `dependencies`, `comments`) are modelled as
lists of rows inside a `DB` value; every mutation goes through `mutate`, which
mirrors the transaction protocol of `SqliteStorage::mutate` (body, event
write-back, dirty upsert, cache invalidation, commit / rollback).

Conventions used throughout:
* SQL `TEXT` columns are `String` / `Option String`, `INTEGER` columns are
  `Int` / `Option Int`; RFC 3339 timestamps are kept as their stored strings.
* `chrono`'s RFC 3339 parser is external library code, so it is abstracted as
  a parameter `rfc : String → Option String` (`none` = unparseable input);
  `Utc::now()` is abstracted as an explicit `now : String` argument.
* SQLite's `BINARY` collation on UTF-8 text is modelled by `lexLe`
  (lexicographic comparison of code points, which agrees with byte order on
  UTF-8), and SQL `LIKE` by the structural matcher `likeM`.
* Types declared in `model.rs` / `error.rs` / `schema.rs` (which are not part
  of the sources at hand, only used by them) are modelled from the spec where
  the doc comment says so.
-/

/-- Fold an ASCII upper-case letter to lower case; all other characters are
left unchanged.  This is the case folding SQLite's default `LIKE` applies. -/
def lowerC (c : Char) : Char :=
  if 'A' ≤ c ∧ c ≤ 'Z' then Char.ofNat (c.toNat + 32) else c

/-- Total lexicographic comparison of character lists by code point; models
SQLite's `BINARY` ordering of `TEXT` columns (UTF-8 byte order coincides with
code-point order). -/
def lexLe : List Char → List Char → Bool
  | [], _ => true
  | _ :: _, [] => false
  | a :: as, b :: bs =>
    if a.toNat < b.toNat then true
    else if a.toNat == b.toNat then lexLe as bs
    else false

/-- `char::is_whitespace`: the Unicode `White_Space` property, i.e.
U+0009–U+000D, U+0020, U+0085, U+00A0, U+1680, U+2000–U+200A, U+2028,
U+2029, U+202F, U+205F and U+3000. -/
def isWS (c : Char) : Bool :=
  let n := c.toNat
  (0x9 ≤ n && n ≤ 0xD) || n == 0x20 || n == 0x85 || n == 0xA0 || n == 0x1680 ||
    (0x2000 ≤ n && n ≤ 0x200A) || n == 0x2028 || n == 0x2029 || n == 0x202F ||
    n == 0x205F || n == 0x3000

/-- Model of `str::trim`: strip leading and trailing Unicode whitespace. -/
def trimWS (s : String) : String :=
  ⟨((s.data.dropWhile isWS).reverse.dropWhile isWS).reverse⟩

/-- Does `f` hold of some suffix of the list (including itself and `[]`)?
Helper for the `%` wildcard of `LIKE`. -/
def suffixAny (f : List Char → Bool) : List Char → Bool
  | [] => f []
  | h :: t => f (h :: t) || suffixAny f t

/-- SQL `LIKE` matching (SQLite default semantics): `%` matches any sequence,
`_` any single character, other characters match ASCII-case-insensitively.
First argument is the pattern, second the text. -/
def likeM : List Char → List Char → Bool
  | [], hs => hs.isEmpty
  | p :: ps, hs =>
    if p == '%' then suffixAny (likeM ps) hs
    else if p == '_' then
      match hs with | [] => false | _ :: t => likeM ps t
    else
      match hs with
      | [] => false
      | h :: t => (lowerC p == lowerC h) && likeM ps t

/-- The `LIKE` pattern `%needle%` applied to `hay`, i.e.
`format!("%{needle}%")` as built by `list_issues` / `search_issues`. -/
def likeStr (needle hay : String) : Bool :=
  likeM ('%' :: needle.data ++ ['%']) hay.data

/-- Issue status.  Modelled from the spec: `model.rs` is not among the given
sources; §3 fixes the value set {open, in_progress, blocked, closed,
tombstone}. -/
inductive Status where
  | Open
  | InProgress
  | Blocked
  | Closed
  | Tombstone
deriving DecidableEq

/-- Stored string form of a status.  Modelled from the spec (§3 / §6.2). -/
def Status.as_str : Status → String
  | .Open => "open"
  | .InProgress => "in_progress"
  | .Blocked => "blocked"
  | .Closed => "closed"
  | .Tombstone => "tombstone"

/-- `FromStr` for `Status`.  Modelled from the spec: unknown strings fail to
parse. -/
def Status.fromStr (s : String) : Option Status :=
  if s == "open" then some .Open
  else if s == "in_progress" then some .InProgress
  else if s == "blocked" then some .Blocked
  else if s == "closed" then some .Closed
  else if s == "tombstone" then some .Tombstone
  else none

/-- `Status::default()`.  Modelled from the spec: §4.3 "defaults status to
`open`". -/
def Status.default : Status := .Open

/-- Issue type.  Modelled from the spec (§3). -/
inductive IssueType where
  | Task
  | Bug
  | Feature
  | Epic
  | Chore
  | Spike
  | Doc
  | Test
  | Other
deriving DecidableEq

/-- Stored string form of an issue type.  Modelled from the spec (§3). -/
def IssueType.as_str : IssueType → String
  | .Task => "task"
  | .Bug => "bug"
  | .Feature => "feature"
  | .Epic => "epic"
  | .Chore => "chore"
  | .Spike => "spike"
  | .Doc => "doc"
  | .Test => "test"
  | .Other => "other"

/-- `FromStr` for `IssueType`.  Modelled from the spec. -/
def IssueType.fromStr (s : String) : Option IssueType :=
  if s == "task" then some .Task
  else if s == "bug" then some .Bug
  else if s == "feature" then some .Feature
  else if s == "epic" then some .Epic
  else if s == "chore" then some .Chore
  else if s == "spike" then some .Spike
  else if s == "doc" then some .Doc
  else if s == "test" then some .Test
  else if s == "other" then some .Other
  else none

/-- `IssueType::default()`.  Modelled from the spec: §4.3 "defaults ... type
to `task`". -/
def IssueType.default : IssueType := .Task

/-- Event types.  Modelled from the spec (§3, Event entity). -/
inductive EventType where
  | Created
  | Updated
  | StatusChanged
  | PriorityChanged
  | Assigned
  | Closed
  | Reopened
  | Deleted
  | LabelAdded
  | LabelRemoved
  | DependencyAdded
  | DependencyRemoved
  | CommentAdded
deriving DecidableEq

/-- Stored string form of an event type (`EventType::as_str`).  Modelled from
the spec's event-type names. -/
def EventType.as_str : EventType → String
  | .Created => "created"
  | .Updated => "updated"
  | .StatusChanged => "status_changed"
  | .PriorityChanged => "priority_changed"
  | .Assigned => "assigned"
  | .Closed => "closed"
  | .Reopened => "reopened"
  | .Deleted => "deleted"
  | .LabelAdded => "label_added"
  | .LabelRemoved => "label_removed"
  | .DependencyAdded => "dependency_added"
  | .DependencyRemoved => "dependency_removed"
  | .CommentAdded => "comment_added"

/-- `fn parse_status` (sqlite.rs:992): `s.and_then(|s| s.parse().ok()).unwrap_or_default()`. -/
def parse_status (s : Option String) : Status :=
  (s.bind Status.fromStr).getD Status.default

/-- `fn parse_issue_type` (sqlite.rs:996). -/
def parse_issue_type (s : Option String) : IssueType :=
  (s.bind IssueType.fromStr).getD IssueType.default

/-- `fn parse_datetime` (sqlite.rs:1000): RFC 3339 parse with fallback to
`Utc::now()`.  `rfc` abstracts `chrono::DateTime::parse_from_rfc3339` (plus
the conversion to UTC); `now` abstracts `Utc::now()`. -/
def parse_datetime (rfc : String → Option String) (now : String) (s : String) : String :=
  (rfc s).getD now

/-- A row of the `dependencies` table: `(issue_id, depends_on_id, type,
created_at, created_by)`. -/
structure DepRow where
  issue_id : String
  depends_on_id : String
  dep_type : String
  created_at : String
  created_by : String
deriving DecidableEq

/-- A row of the `comments` table: `(id, issue_id, author, text, created_at)`. -/
structure CommentRow where
  id : Int
  issue_id : String
  author : String
  body : String
  created_at : String
deriving DecidableEq

/-- A row of the `events` table, with the server-assigned auto-increment id. -/
structure EventRow where
  id : Nat
  issue_id : String
  event_type : String
  actor : String
  old_value : Option String
  new_value : Option String
  comment : Option String
  created_at : String
deriving DecidableEq

/-- A stored row of the `issues` table, column for column as selected by
`get_issue` / `list_issues` / `search_issues` (sqlite.rs:226).  Columns are
nullable exactly where the reading code tolerates `NULL`; `id`, `title`,
`created_at` and `updated_at` are `NOT NULL` (spec §3: id and title required,
created/updated always present). -/
structure IssueRow where
  id : String
  content_hash : Option String
  title : String
  description : Option String
  design : Option String
  acceptance_criteria : Option String
  notes : Option String
  status : Option String
  priority : Option Int
  issue_type : Option String
  assignee : Option String
  owner : Option String
  estimated_minutes : Option Int
  created_at : String
  created_by : Option String
  updated_at : String
  closed_at : Option String
  close_reason : Option String
  closed_by_session : Option String
  due_at : Option String
  defer_until : Option String
  external_ref : Option String
  source_system : Option String
  deleted_at : Option String
  deleted_by : Option String
  delete_reason : Option String
  original_type : Option String
  compaction_level : Option Int
  compacted_at : Option String
  compacted_at_commit : Option String
  original_size : Option Int
  sender : Option String
  ephemeral : Option Int
  pinned : Option Int
  is_template : Option Int
deriving DecidableEq

/-- The in-memory `model::Issue` record as produced by `issue_from_row`.
Timestamps are kept as their (re-)rendered RFC 3339 strings. -/
structure Issue where
  id : String
  content_hash : Option String
  title : String
  description : Option String
  design : Option String
  acceptance_criteria : Option String
  notes : Option String
  status : Status
  priority : Int
  issue_type : IssueType
  assignee : Option String
  owner : Option String
  estimated_minutes : Option Int
  created_at : String
  created_by : Option String
  updated_at : String
  closed_at : Option String
  close_reason : Option String
  closed_by_session : Option String
  due_at : Option String
  defer_until : Option String
  external_ref : Option String
  source_system : Option String
  deleted_at : Option String
  deleted_by : Option String
  delete_reason : Option String
  original_type : Option String
  compaction_level : Option Int
  compacted_at : Option String
  compacted_at_commit : Option String
  original_size : Option Int
  sender : Option String
  ephemeral : Bool
  pinned : Bool
  is_template : Bool
  labels : List String
  dependencies : List DepRow
  comments : List CommentRow
deriving DecidableEq

/-- `SqliteStorage::issue_from_row` (sqlite.rs:728): total decoding of a
stored row, with fallbacks for unknown enum strings, `NULL` priority and
unparseable timestamps. -/
def issue_from_row (rfc : String → Option String) (now : String) (r : IssueRow) : Issue :=
  { id := r.id
    content_hash := r.content_hash
    title := r.title
    description := r.description
    design := r.design
    acceptance_criteria := r.acceptance_criteria
    notes := r.notes
    status := parse_status r.status
    priority := r.priority.getD 2
    issue_type := parse_issue_type r.issue_type
    assignee := r.assignee
    owner := r.owner
    estimated_minutes := r.estimated_minutes
    created_at := parse_datetime rfc now r.created_at
    created_by := r.created_by
    updated_at := parse_datetime rfc now r.updated_at
    closed_at := r.closed_at.map (parse_datetime rfc now)
    close_reason := r.close_reason
    closed_by_session := r.closed_by_session
    due_at := r.due_at.map (parse_datetime rfc now)
    defer_until := r.defer_until.map (parse_datetime rfc now)
    external_ref := r.external_ref
    source_system := r.source_system
    deleted_at := r.deleted_at.map (parse_datetime rfc now)
    deleted_by := r.deleted_by
    delete_reason := r.delete_reason
    original_type := r.original_type
    compaction_level := r.compaction_level
    compacted_at := r.compacted_at.map (parse_datetime rfc now)
    compacted_at_commit := r.compacted_at_commit
    original_size := r.original_size
    sender := r.sender
    ephemeral := (r.ephemeral.getD 0) != 0
    pinned := (r.pinned.getD 0) != 0
    is_template := (r.is_template.getD 0) != 0
    labels := []
    dependencies := []
    comments := [] }

/-- The database state: the six storage tables plus `comments`. -/
structure DB where
  issues : List IssueRow
  events : List EventRow
  dirty_issues : List (String × String)
  blocked_issues_cache : List (String × String)
  labels : List (String × String)
  dependencies : List DepRow
  comments : List CommentRow
deriving DecidableEq

/-- The error type (`error.rs` is not among the given sources; modelled from
the spec's error taxonomy in §7, restricted to the codes the storage layer
needs). -/
inductive BeadsError where
  | issueNotFound (id : String)
  | constraintViolation (msg : String)
deriving DecidableEq

/-- A buffered event inside a `MutationContext` (`Event` with placeholder id,
sqlite.rs:42). -/
structure Event where
  issue_id : String
  event_type : EventType
  actor : String
  old_value : Option String
  new_value : Option String
  comment : Option String
  created_at : String
deriving DecidableEq

/-- `MutationContext` (sqlite.rs:21): side-effect tracking for one mutation. -/
structure MutationContext where
  op_name : String
  actor : String
  events : List Event
  dirty_ids : List String
  invalidate_blocked_cache : Bool
deriving DecidableEq

/-- `MutationContext::new` (sqlite.rs:31). -/
def MutationContext.new (op actor : String) : MutationContext :=
  { op_name := op, actor := actor, events := [], dirty_ids := [],
    invalidate_blocked_cache := false }

/-- `MutationContext::record_event` (sqlite.rs:41): push an event with the
context's actor, no old/new values and the current timestamp. -/
def MutationContext.record_event (ctx : MutationContext) (event_type : EventType)
    (issue_id : String) (details : Option String) (now : String) : MutationContext :=
  { ctx with events := ctx.events ++
      [{ issue_id := issue_id, event_type := event_type, actor := ctx.actor,
         old_value := none, new_value := none, comment := details,
         created_at := now }] }

/-- `MutationContext::mark_dirty` (sqlite.rs:54): `dirty_ids` is a `HashSet`,
modelled as a duplicate-free list. -/
def MutationContext.mark_dirty (ctx : MutationContext) (issue_id : String) : MutationContext :=
  { ctx with dirty_ids :=
      if ctx.dirty_ids.contains issue_id then ctx.dirty_ids
      else ctx.dirty_ids ++ [issue_id] }

/-- `MutationContext::invalidate_cache` (sqlite.rs:58). -/
def MutationContext.invalidate_cache (ctx : MutationContext) : MutationContext :=
  { ctx with invalidate_blocked_cache := true }

/-- `INSERT INTO events ...` (sqlite.rs:117): append one row with the
server-assigned auto-increment id (events are append-only, so the next id is
one past the current row count). -/
def writeEvent (events : List EventRow) (e : Event) : List EventRow :=
  events ++ [{ id := events.length + 1, issue_id := e.issue_id,
               event_type := e.event_type.as_str, actor := e.actor,
               old_value := e.old_value, new_value := e.new_value,
               comment := e.comment, created_at := e.created_at }]

/-- The event write-back loop of `mutate` (sqlite.rs:116). -/
def writeEvents (events : List EventRow) (es : List Event) : List EventRow :=
  es.foldl writeEvent events

/-- `INSERT OR REPLACE INTO dirty_issues (issue_id, marked_at)`
(sqlite.rs:134): keyed by `issue_id`. -/
def upsertDirty (d : List (String × String)) (id now : String) : List (String × String) :=
  if d.any (fun p => p.1 == id) then
    d.map (fun p => if p.1 == id then (id, now) else p)
  else d ++ [(id, now)]

/-- The dirty-mark loop of `mutate` (sqlite.rs:133). -/
def markDirtyAll (d : List (String × String)) (ids : List String) (now : String) :
    List (String × String) :=
  ids.foldl (fun acc i => upsertDirty acc i now) d

/-- `SqliteStorage::mutate` (sqlite.rs:104): run `f` against the transaction,
then write buffered events, upsert dirty ids, clear `blocked_issues_cache`
when requested, and commit.  If `f` fails, the transaction is rolled back and
the pre-call state is returned unchanged. -/
def mutate {α : Type} (op actor now : String)
    (f : DB → MutationContext → Except BeadsError (DB × MutationContext × α))
    (db : DB) : DB × Except BeadsError α :=
  match f db (MutationContext.new op actor) with
  | .error e => (db, .error e)
  | .ok (db1, ctx, r) =>
    ({ db1 with
        events := writeEvents db1.events ctx.events
        dirty_issues := markDirtyAll db1.dirty_issues ctx.dirty_ids now
        blocked_issues_cache :=
          if ctx.invalidate_blocked_cache then [] else db1.blocked_issues_cache },
     .ok r)

/-- `SqliteStorage::get_issue` (sqlite.rs:225): primary-key lookup decoded by
`issue_from_row`; `None` when no row matches. -/
def get_issue (rfc : String → Option String) (now : String) (db : DB) (id : String) :
    Option Issue :=
  (db.issues.find? (fun r => r.id == id)).map (issue_from_row rfc now)

/-- `SqliteStorage::create_issue` (sqlite.rs:154): insert the row (the
`issues.id` primary key — spec §3 — rejects duplicates), record `created`,
mark the new id dirty.  Columns not named in the INSERT stay `NULL`. -/
def create_issue (issue : Issue) (actor now : String) (db : DB) :
    DB × Except BeadsError Unit :=
  mutate "create_issue" actor now (fun tx ctx =>
    if tx.issues.any (fun r => r.id == issue.id) then
      .error (.constraintViolation "UNIQUE constraint failed: issues.id")
    else
      let row : IssueRow :=
        { id := issue.id, title := issue.title, description := issue.description
          status := some issue.status.as_str, priority := some issue.priority
          issue_type := some issue.issue_type.as_str, assignee := issue.assignee
          owner := issue.owner, estimated_minutes := issue.estimated_minutes
          created_at := issue.created_at, created_by := issue.created_by
          updated_at := issue.updated_at, due_at := issue.due_at
          defer_until := issue.defer_until, external_ref := issue.external_ref
          content_hash := none, design := none, acceptance_criteria := none
          notes := none, closed_at := none, close_reason := none
          closed_by_session := none, source_system := none, deleted_at := none
          deleted_by := none, delete_reason := none, original_type := none
          compaction_level := none, compacted_at := none
          compacted_at_commit := none, original_size := none, sender := none
          ephemeral := none, pinned := none, is_template := none }
      let ctx := ctx.record_event .Created issue.id
        (some ("Created issue: " ++ issue.title)) now
      let ctx := ctx.mark_dirty issue.id
      .ok ({ tx with issues := tx.issues ++ [row] }, ctx, ())) db

/-- The `UPDATE issues SET status = 'tombstone', ...` of `delete_issue`
(sqlite.rs:546), applied to every row with the given id. -/
def tombstoneRow (id actor reason original_type now : String) (r : IssueRow) : IssueRow :=
  if r.id == id then
    { r with status := some "tombstone", deleted_at := some now,
             deleted_by := some actor, delete_reason := some reason,
             original_type := some original_type, updated_at := now }
  else r

/-- `SqliteStorage::delete_issue` (sqlite.rs:537): look the issue up (error
`IssueNotFound` if absent), then inside `mutate` tombstone it, record
`deleted`, mark dirty and invalidate the blocked cache; finally re-read the
updated issue. -/
def delete_issue (rfc : String → Option String) (id actor reason now : String)
    (db : DB) : DB × Except BeadsError Issue :=
  match get_issue rfc now db id with
  | none => (db, .error (.issueNotFound id))
  | some issue =>
    let original_type := issue.issue_type.as_str
    let step := mutate "delete_issue" actor now (fun tx ctx =>
      let tx :=
        { tx with issues := tx.issues.map (tombstoneRow id actor reason original_type now) }
      let ctx := ctx.record_event .Deleted id (some ("Deleted issue: " ++ reason)) now
      let ctx := ctx.mark_dirty id
      let ctx := ctx.invalidate_cache
      .ok (tx, ctx, ())) db
    match step.2 with
    | .error e => (step.1, .error e)
    | .ok _ =>
      match get_issue rfc now step.1 id with
      | some i => (step.1, .ok i)
      | none => (step.1, .error (.issueNotFound id))

/-- `SqliteStorage::add_dependency` (sqlite.rs:617): plain INSERT of the edge
(the `(issue_id, depends_on_id)` uniqueness — spec §4.4 "rejects if the edge
already exists" — makes a duplicate INSERT fail), record `dependency_added`,
mark `issue_id` dirty, invalidate the cache.  No other validation happens
here. -/
def add_dependency (issue_id depends_on_id dep_type actor now : String) (db : DB) :
    DB × Except BeadsError Unit :=
  mutate "add_dependency" actor now (fun tx ctx =>
    if tx.dependencies.any
        (fun d => d.issue_id == issue_id && d.depends_on_id == depends_on_id) then
      .error (.constraintViolation "UNIQUE constraint failed: dependencies")
    else
      let ctx := ctx.record_event .DependencyAdded issue_id
        (some ("Added dependency on " ++ depends_on_id)) now
      let ctx := ctx.mark_dirty issue_id
      let ctx := ctx.invalidate_cache
      .ok ({ tx with dependencies := tx.dependencies ++
              [{ issue_id := issue_id, depends_on_id := depends_on_id,
                 dep_type := dep_type, created_at := now, created_by := actor }] },
           ctx, ())) db

/-- `SqliteStorage::remove_dependency` (sqlite.rs:586): DELETE the edge; only
when a row was actually deleted record `dependency_removed`, mark dirty and
invalidate; returns whether a row was deleted. -/
def remove_dependency (issue_id depends_on_id actor now : String) (db : DB) :
    DB × Except BeadsError Bool :=
  mutate "remove_dependency" actor now (fun tx ctx =>
    let hit := fun (d : DepRow) => d.issue_id == issue_id && d.depends_on_id == depends_on_id
    let rows := (tx.dependencies.filter hit).length
    let tx := { tx with dependencies := tx.dependencies.filter (fun d => !(hit d)) }
    if rows > 0 then
      let ctx := ctx.record_event .DependencyRemoved issue_id
        (some ("Removed dependency on " ++ depends_on_id)) now
      let ctx := ctx.mark_dirty issue_id
      let ctx := ctx.invalidate_cache
      .ok (tx, ctx, true)
    else
      .ok (tx, ctx, false)) db

/-- `SqliteStorage::add_label` (sqlite.rs:656): `INSERT OR IGNORE` against the
`(issue_id, label)` uniqueness (spec §3); only a real insert records
`label_added` and marks dirty; returns whether a row was inserted. -/
def add_label (issue_id label actor now : String) (db : DB) :
    DB × Except BeadsError Bool :=
  mutate "add_label" actor now (fun tx ctx =>
    if tx.labels.contains (issue_id, label) then
      .ok (tx, ctx, false)
    else
      let tx := { tx with labels := tx.labels ++ [(issue_id, label)] }
      let ctx := ctx.record_event .LabelAdded issue_id
        (some ("Added label " ++ label)) now
      let ctx := ctx.mark_dirty issue_id
      .ok (tx, ctx, true)) db

/-- `SqliteStorage::remove_all_dependencies` (sqlite.rs:683): collect the
affected neighbour ids, DELETE outgoing then incoming edges, and if anything
was removed record one `dependency_removed`, mark the issue and all affected
neighbours dirty, and invalidate the cache; returns the removed count. -/
def remove_all_dependencies (issue_id actor now : String) (db : DB) :
    DB × Except BeadsError Nat :=
  mutate "remove_all_dependencies" actor now (fun tx ctx =>
    let affected :=
      ((tx.dependencies.filter (fun d => d.depends_on_id == issue_id)).map
        (fun d => d.issue_id)) ++
      ((tx.dependencies.filter (fun d => d.issue_id == issue_id)).map
        (fun d => d.depends_on_id))
    let outgoing := (tx.dependencies.filter (fun d => d.issue_id == issue_id)).length
    let deps1 := tx.dependencies.filter (fun d => !(d.issue_id == issue_id))
    let incoming := (deps1.filter (fun d => d.depends_on_id == issue_id)).length
    let deps2 := deps1.filter (fun d => !(d.depends_on_id == issue_id))
    let total := outgoing + incoming
    if total > 0 then
      let ctx := ctx.record_event .DependencyRemoved issue_id
        (some ("Removed " ++ toString total ++ " dependency links")) now
      let ctx := ctx.mark_dirty issue_id
      let ctx := affected.foldl (fun c i => c.mark_dirty i) ctx
      let ctx := ctx.invalidate_cache
      .ok ({ tx with dependencies := deps2 }, ctx, total)
    else
      .ok ({ tx with dependencies := deps2 }, ctx, total)) db

/-- `ListFilters` (sqlite.rs:979).  `Default` gives all-`none` / `false`. -/
structure ListFilters where
  statuses : Option (List Status)
  types : Option (List IssueType)
  priorities : Option (List Int)
  assignee : Option String
  unassigned : Bool
  include_closed : Bool
  include_templates : Bool
  title_contains : Option String
  limit : Option Nat
deriving DecidableEq

/-- `ListFilters::default()` (`#[derive(Default)]`, sqlite.rs:979). -/
def ListFilters.default : ListFilters :=
  { statuses := none, types := none, priorities := none, assignee := none,
    unassigned := false, include_closed := false, include_templates := false,
    title_contains := none, limit := none }

/-- The WHERE clauses shared verbatim by `list_issues` (sqlite.rs:267) and
`search_issues` (sqlite.rs:380): status/type/priority IN-lists (skipped when
the vector is empty), assignee equality, `assignee IS NULL`, the default
exclusion of closed/tombstone, the default exclusion of templates
(`is_template = 0 OR is_template IS NULL`), and `title LIKE %…%`.  SQL
three-valued logic: a `NULL` column never satisfies `=`, `IN` or `NOT IN`. -/
def passesFilters (f : ListFilters) (r : IssueRow) : Bool :=
  (match f.statuses with
   | some ss => if ss.isEmpty then true
                else ss.any (fun s => r.status == some s.as_str)
   | none => true) &&
  (match f.types with
   | some ts => if ts.isEmpty then true
                else ts.any (fun t => r.issue_type == some t.as_str)
   | none => true) &&
  (match f.priorities with
   | some ps => if ps.isEmpty then true
                else ps.any (fun p => r.priority == some p)
   | none => true) &&
  (match f.assignee with
   | some a => r.assignee == some a
   | none => true) &&
  (if f.unassigned then r.assignee == none else true) &&
  (if f.include_closed then true
   else match r.status with
        | some s => !(s == "closed" || s == "tombstone")
        | none => false) &&
  (if f.include_templates then true
   else r.is_template == some 0 || r.is_template == none) &&
  (match f.title_contains with
   | some t => likeStr t r.title
   | none => true)

/-- `ORDER BY priority ASC` on a nullable INTEGER column: SQLite sorts `NULL`
before every number in ascending order. -/
def optIntLt : Option Int → Option Int → Bool
  | none, none => false
  | none, some _ => true
  | some _, none => false
  | some a, some b => a < b

/-- The `ORDER BY priority ASC, created_at DESC` comparator (sqlite.rs:328)
over stored rows; `created_at` is compared as TEXT under `BINARY` collation. -/
def rowLE (a b : IssueRow) : Bool :=
  optIntLt a.priority b.priority ||
    (a.priority == b.priority && lexLe b.created_at.data a.created_at.data)

/-- Insert a row into a `rowLE`-sorted list, keeping it sorted. -/
def insertSorted (x : IssueRow) : List IssueRow → List IssueRow
  | [] => [x]
  | y :: ys => if rowLE x y then x :: y :: ys else y :: insertSorted x ys

/-- Model of the SQL ORDER BY: sort rows by `rowLE` (insertion sort; any sort
realising the comparator is a faithful model of the SQL engine). -/
def sortRows : List IssueRow → List IssueRow
  | [] => []
  | x :: xs => insertSorted x (sortRows xs)

/-- The LIMIT clause (sqlite.rs:331): appended only when a limit is present
and positive, so `Some 0` and `None` both mean unlimited. -/
def applyLimit (lim : Option Nat) (l : List IssueRow) : List IssueRow :=
  match lim with
  | some n => if 0 < n then l.take n else l
  | none => l

/-- `SqliteStorage::list_issues` (sqlite.rs:252) at row level: WHERE filters,
ORDER BY, LIMIT. -/
def listRows (db : DB) (filters : ListFilters) : List IssueRow :=
  applyLimit filters.limit (sortRows (db.issues.filter (passesFilters filters)))

/-- `SqliteStorage::list_issues` (sqlite.rs:252): the selected rows decoded by
`issue_from_row`. -/
def list_issues (rfc : String → Option String) (now : String) (db : DB)
    (filters : ListFilters) : List Issue :=
  (listRows db filters).map (issue_from_row rfc now)

/-- The query clause of `search_issues` (sqlite.rs:374):
`title LIKE %q% OR description LIKE %q% OR id LIKE %q%`; a `NULL`
description never matches. -/
def searchMatch (t : String) (r : IssueRow) : Bool :=
  likeStr t r.title ||
    (match r.description with | some d => likeStr t d | none => false) ||
    likeStr t r.id

/-- `SqliteStorage::search_issues` (sqlite.rs:355) at row level: trim the
query, return nothing for an empty trimmed query, otherwise the LIKE clause
ANDed with the shared filters, then ORDER BY and LIMIT. -/
def searchRows (db : DB) (query : String) (filters : ListFilters) : List IssueRow :=
  let trimmed := trimWS query
  if trimmed == "" then []
  else applyLimit filters.limit (sortRows (db.issues.filter
    (fun r => searchMatch trimmed r && passesFilters filters r)))

/-- `SqliteStorage::search_issues` (sqlite.rs:355): the matching rows decoded
by `issue_from_row`. -/
def search_issues (rfc : String → Option String) (now : String) (db : DB)
    (query : String) (filters : ListFilters) : List Issue :=
  (searchRows db query filters).map (issue_from_row rfc now)

/-- The empty database (a fresh store). -/
def emptyDB : DB :=
  { issues := [], events := [], dirty_issues := [], blocked_issues_cache := [],
    labels := [], dependencies := [], comments := [] }

/-- A parse function for which no string is valid RFC 3339 (used to exercise
fallback paths in witnesses). -/
def rfc0 : String → Option String := fun _ => none

/-- A representative stored issue row used by the concrete witnesses. -/
def baseRow : IssueRow :=
  { id := "bd-001", content_hash := none, title := "hello", description := none,
    design := none, acceptance_criteria := none, notes := none,
    status := some "open", priority := some 2, issue_type := some "task",
    assignee := none, owner := none, estimated_minutes := none,
    created_at := "2024-01-01T00:00:00+00:00", created_by := none,
    updated_at := "2024-01-01T00:00:00+00:00", closed_at := none,
    close_reason := none, closed_by_session := none, due_at := none,
    defer_until := none, external_ref := none, source_system := none,
    deleted_at := none, deleted_by := none, delete_reason := none,
    original_type := none, compaction_level := none, compacted_at := none,
    compacted_at_commit := none, original_size := none, sender := none,
    ephemeral := none, pinned := none, is_template := none }

theorem writeEvent_length (evs : List EventRow) (e : Event) :
    (writeEvent evs e).length = evs.length + 1 := by
  simp [writeEvent]

theorem writeEvents_length (es : List Event) (evs : List EventRow) :
    (writeEvents evs es).length = evs.length + es.length := by
  induction es generalizing evs with
  | nil => simp [writeEvents]
  | cons e es ih =>
    show (writeEvents (writeEvent evs e) es).length = _
    rw [ih, writeEvent_length]
    simp only [List.length_cons]
    omega

/-- C1: if the body passed to `mutate` returns an error, the transaction is
rolled back: the call surfaces the error and the database state afterwards is
identical to the state before the call — in particular no issue rows, event
rows or dirty rows were added and `blocked_issues_cache` is unchanged. -/
theorem C1_mutate_rolls_back {α : Type} (op actor now : String)
    (f : DB → MutationContext → Except BeadsError (DB × MutationContext × α))
    (db : DB) (e : BeadsError)
    (h : f db (MutationContext.new op actor) = .error e) :
    mutate op actor now f db = (db, .error e) ∧
    (mutate op actor now f db).1.issues = db.issues ∧
    (mutate op actor now f db).1.events = db.events ∧
    (mutate op actor now f db).1.dirty_issues = db.dirty_issues ∧
    (mutate op actor now f db).1.blocked_issues_cache = db.blocked_issues_cache := by
  unfold mutate
  rw [h]
  exact ⟨rfl, rfl, rfl, rfl, rfl⟩

theorem C1_mutate_rolls_back_witness :
    mutate "test_fail" "tester" "t0"
        (fun _ _ =>
          (Except.error (BeadsError.issueNotFound "forced") :
            Except BeadsError (DB × MutationContext × Unit)))
        emptyDB
      = (emptyDB, Except.error (BeadsError.issueNotFound "forced")) :=
  (C1_mutate_rolls_back "test_fail" "tester" "t0" _ emptyDB
    (BeadsError.issueNotFound "forced") rfl).1

/-- A database whose blocked cache is populated theorem-side, mirroring the
`test_blocked_cache_invalidation` fixture. -/
def cacheDB : DB := { emptyDB with blocked_issues_cache := [("bd-cached", "x")] }

/-- C3: whenever the body of a mutation succeeds and requested blocked-cache
invalidation, the committed state has an empty `blocked_issues_cache`,
whatever the cache held before. -/
theorem C3_invalidation_empties_cache {α : Type} (op actor now : String)
    (f : DB → MutationContext → Except BeadsError (DB × MutationContext × α))
    (db db1 : DB) (ctx : MutationContext) (r : α)
    (h : f db (MutationContext.new op actor) = .ok (db1, ctx, r))
    (hinv : ctx.invalidate_blocked_cache = true) :
    (mutate op actor now f db).1.blocked_issues_cache = [] := by
  unfold mutate
  rw [h]
  simp [hinv]

theorem C3_invalidation_empties_cache_witness :
    (mutate "invalidate_test" "tester" "t0"
        (fun tx ctx => (Except.ok (tx, ctx.invalidate_cache, ()) :
          Except BeadsError (DB × MutationContext × Unit)))
        cacheDB).1.blocked_issues_cache = [] :=
  C3_invalidation_empties_cache "invalidate_test" "tester" "t0" _ cacheDB cacheDB
    ((MutationContext.new "invalidate_test" "tester").invalidate_cache) () rfl rfl

/-- A representative `model::Issue` value, as decoded from `baseRow`. -/
def sampleIssue : Issue := issue_from_row rfc0 "t0" baseRow

/-- A database holding the single issue `bd-001`. -/
def dbOne : DB := { emptyDB with issues := [baseRow] }

/-- A dependency edge of type `blocks` with fixed bookkeeping fields. -/
def mkDep (a b : String) : DepRow :=
  { issue_id := a, depends_on_id := b, dep_type := "blocks",
    created_at := "2024-01-01T00:00:00+00:00", created_by := "setup" }

/-- A database holding one dependency edge `a → b`. -/
def dbEdge : DB := { emptyDB with dependencies := [mkDep "a" "b"] }

theorem foldl_mark_dirty_events (ids : List String) (c : MutationContext) :
    (ids.foldl (fun c i => c.mark_dirty i) c).events = c.events := by
  induction ids generalizing c with
  | nil => rfl
  | cons i ids ih =>
    rw [List.foldl_cons, ih]
    rfl

/-- C4: every state-changing operation appends at least one row to `events`
in its transaction: a successful `create_issue`, a successful `delete_issue`,
a successful `add_dependency`, a `remove_dependency` that deleted an edge
(returned `true`), an `add_label` that inserted (returned `true`), and a
`remove_all_dependencies` that removed at least one edge. -/
theorem C4_mutations_record_events :
    (∀ (issue : Issue) (actor now : String) (db : DB),
       (create_issue issue actor now db).2 = .ok () →
       db.events.length < (create_issue issue actor now db).1.events.length) ∧
    (∀ (rfc : String → Option String) (id actor reason now : String) (db : DB),
       (∃ i, (delete_issue rfc id actor reason now db).2 = .ok i) →
       db.events.length < (delete_issue rfc id actor reason now db).1.events.length) ∧
    (∀ (a b t actor now : String) (db : DB),
       (add_dependency a b t actor now db).2 = .ok () →
       db.events.length < (add_dependency a b t actor now db).1.events.length) ∧
    (∀ (a b actor now : String) (db : DB),
       (remove_dependency a b actor now db).2 = .ok true →
       db.events.length < (remove_dependency a b actor now db).1.events.length) ∧
    (∀ (a l actor now : String) (db : DB),
       (add_label a l actor now db).2 = .ok true →
       db.events.length < (add_label a l actor now db).1.events.length) ∧
    (∀ (a actor now : String) (db : DB),
       (∃ n, (remove_all_dependencies a actor now db).2 = .ok n ∧ 0 < n) →
       db.events.length < (remove_all_dependencies a actor now db).1.events.length) := by
  refine ⟨?_, ?_, ?_, ?_, ?_, ?_⟩
  · intro issue actor now db h
    by_cases hd : (db.issues.any (fun r => r.id == issue.id)) = true
    · simp [create_issue, mutate, hd] at h
    · simp [create_issue, mutate, hd, writeEvents_length,
        MutationContext.new, MutationContext.record_event, MutationContext.mark_dirty]
  · rintro rfc id actor reason now db ⟨i, h⟩
    cases hg : get_issue rfc now db id with
    | none => simp [delete_issue, hg] at h
    | some issue =>
      simp only [delete_issue, hg, mutate, MutationContext.new,
        MutationContext.record_event, MutationContext.mark_dirty,
        MutationContext.invalidate_cache]
      split <;> simp [writeEvents_length]
  · intro a b t actor now db h
    by_cases hd : (db.dependencies.any
        (fun d => d.issue_id == a && d.depends_on_id == b)) = true
    · simp [add_dependency, mutate, hd] at h
    · simp [add_dependency, mutate, hd, writeEvents_length,
        MutationContext.new, MutationContext.record_event, MutationContext.mark_dirty,
        MutationContext.invalidate_cache]
  · intro a b actor now db h
    by_cases h0 : 0 < (db.dependencies.filter
        (fun d => d.issue_id == a && d.depends_on_id == b)).length
    · simp [remove_dependency, mutate, h0, writeEvents_length,
        MutationContext.new, MutationContext.record_event, MutationContext.mark_dirty,
        MutationContext.invalidate_cache]
    · simp [remove_dependency, mutate, h0] at h
  · intro a l actor now db h
    by_cases hc : (a, l) ∈ db.labels
    · simp [add_label, mutate, hc] at h
    · simp [add_label, mutate, hc, writeEvents_length,
        MutationContext.new, MutationContext.record_event, MutationContext.mark_dirty]
  · rintro a actor now db ⟨n, h, hn⟩
    simp only [remove_all_dependencies, mutate] at h ⊢
    by_cases ht :
      (List.filter (fun d => d.issue_id == a) db.dependencies).length +
        (List.filter (fun d => d.depends_on_id == a)
          (List.filter (fun d => !(d.issue_id == a)) db.dependencies)).length > 0
    · rw [if_pos ht]
      dsimp only
      simp only [MutationContext.invalidate_cache, foldl_mark_dirty_events]
      simp [MutationContext.mark_dirty, MutationContext.record_event,
        MutationContext.new, writeEvents_length]
    · rw [if_neg ht] at h
      dsimp only at h
      simp only [Except.ok.injEq] at h
      exfalso
      omega

theorem C4_mutations_record_events_witness :
    (emptyDB.events.length < (create_issue sampleIssue "a" "t0" emptyDB).1.events.length) ∧
    (dbOne.events.length <
      (delete_issue rfc0 "bd-001" "a" "roten" "t0" dbOne).1.events.length) ∧
    (emptyDB.events.length <
      (add_dependency "a" "b" "blocks" "a" "t0" emptyDB).1.events.length) ∧
    (dbEdge.events.length < (remove_dependency "a" "b" "a" "t0" dbEdge).1.events.length) ∧
    (emptyDB.events.length < (add_label "a" "l" "a" "t0" emptyDB).1.events.length) ∧
    (dbEdge.events.length < (remove_all_dependencies "a" "a" "t0" dbEdge).1.events.length) :=
  ⟨C4_mutations_record_events.1 sampleIssue "a" "t0" emptyDB rfl,
   C4_mutations_record_events.2.1 rfc0 "bd-001" "a" "roten" "t0" dbOne ⟨_, rfl⟩,
   C4_mutations_record_events.2.2.1 "a" "b" "blocks" "a" "t0" emptyDB rfl,
   C4_mutations_record_events.2.2.2.1 "a" "b" "a" "t0" dbEdge rfl,
   C4_mutations_record_events.2.2.2.2.1 "a" "l" "a" "t0" emptyDB rfl,
   C4_mutations_record_events.2.2.2.2.2 "a" "a" "t0" dbEdge ⟨1, rfl, by decide⟩⟩

theorem add_label_mem (issue_id label actor now : String) (db : DB)
    (h : (issue_id, label) ∈ db.labels) :
    add_label issue_id label actor now db = (db, .ok false) := by
  simp [add_label, mutate, h, writeEvents, markDirtyAll, MutationContext.new]

theorem add_label_not_mem (issue_id label actor now : String) (db : DB)
    (h : (issue_id, label) ∉ db.labels) :
    (add_label issue_id label actor now db).1.labels = db.labels ++ [(issue_id, label)] ∧
    (add_label issue_id label actor now db).1.events = db.events ++
      [{ id := db.events.length + 1, issue_id := issue_id, event_type := "label_added",
         actor := actor, old_value := none, new_value := none,
         comment := some ("Added label " ++ label), created_at := now }] ∧
    (add_label issue_id label actor now db).2 = .ok true := by
  refine ⟨?_, ?_, ?_⟩ <;>
    simp [add_label, mutate, h, writeEvents, writeEvent, markDirtyAll, upsertDirty,
      MutationContext.new, MutationContext.record_event, MutationContext.mark_dirty,
      EventType.as_str]

/-- C8: `add_label` is idempotent.  When the `(issue_id, label)` pair already
exists the call returns `false` and commits no change at all (labels, events
and dirty set untouched); when it is new, the pair is inserted, exactly one
`label_added` event is appended and the call returns `true`; running the call
a second time leaves the state of the first run unchanged. -/
theorem C8_add_label_idempotent (issue_id label actor now now2 : String) (db : DB) :
    ((issue_id, label) ∈ db.labels →
      add_label issue_id label actor now db = (db, .ok false)) ∧
    ((issue_id, label) ∉ db.labels →
      (add_label issue_id label actor now db).1.labels = db.labels ++ [(issue_id, label)] ∧
      (add_label issue_id label actor now db).1.events = db.events ++
        [{ id := db.events.length + 1, issue_id := issue_id, event_type := "label_added",
           actor := actor, old_value := none, new_value := none,
           comment := some ("Added label " ++ label), created_at := now }] ∧
      (add_label issue_id label actor now db).2 = .ok true) ∧
    ((add_label issue_id label actor now2 (add_label issue_id label actor now db).1).1 =
      (add_label issue_id label actor now db).1) := by
  refine ⟨add_label_mem issue_id label actor now db,
          add_label_not_mem issue_id label actor now db, ?_⟩
  by_cases h : (issue_id, label) ∈ db.labels
  · rw [add_label_mem issue_id label actor now db h]
    rw [add_label_mem issue_id label actor now2 db h]
  · have h2 : (issue_id, label) ∈ (add_label issue_id label actor now db).1.labels := by
      rw [(add_label_not_mem issue_id label actor now db h).1]
      simp
    rw [add_label_mem issue_id label actor now2 _ h2]

/-- A database carrying one existing label pair. -/
def dbLbl : DB := { emptyDB with labels := [("i", "x")] }

theorem C8_add_label_idempotent_witness :
    (add_label "i" "x" "me" "t1" dbLbl = (dbLbl, .ok false)) ∧
    ((add_label "a" "l" "me" "t1" emptyDB).2 = .ok true) ∧
    ((add_label "a" "l" "me" "t2" (add_label "a" "l" "me" "t1" emptyDB).1).1 =
      (add_label "a" "l" "me" "t1" emptyDB).1) :=
  ⟨(C8_add_label_idempotent "i" "x" "me" "t1" "t2" dbLbl).1 (by decide),
   ((C8_add_label_idempotent "a" "l" "me" "t1" "t2" emptyDB).2.1 (by decide)).2.2,
   (C8_add_label_idempotent "a" "l" "me" "t1" "t2" emptyDB).2.2⟩

theorem upsertDirty_mem_pair (d : List (String × String)) (id now : String) :
    ∃ ts, (id, ts) ∈ upsertDirty d id now := by
  unfold upsertDirty
  split
  · rename_i h
    obtain ⟨p, hp, hpe⟩ := List.any_eq_true.mp h
    exact ⟨now, List.mem_map.mpr ⟨p, hp, by simp [hpe]⟩⟩
  · exact ⟨now, by simp⟩

/-- C9 (amended): a successful `add_dependency(src, dst, …)` marks `src`
dirty, appends one `dependency_added` event, and leaves the blocked cache
empty at commit; `dst` is not touched. -/
theorem C9_add_dependency_effects (a b t actor now : String) (db : DB)
    (h : (add_dependency a b t actor now db).2 = .ok ()) :
    a ∈ (add_dependency a b t actor now db).1.dirty_issues.map Prod.fst ∧
    (add_dependency a b t actor now db).1.events = db.events ++
      [{ id := db.events.length + 1, issue_id := a, event_type := "dependency_added",
         actor := actor, old_value := none, new_value := none,
         comment := some ("Added dependency on " ++ b), created_at := now }] ∧
    (add_dependency a b t actor now db).1.blocked_issues_cache = [] := by
  by_cases hd : (db.dependencies.any
      (fun d => d.issue_id == a && d.depends_on_id == b)) = true
  · simp [add_dependency, mutate, hd] at h
  · refine ⟨?_, ?_, ?_⟩
    · simp only [add_dependency, mutate, hd]
      simp [markDirtyAll, MutationContext.new, MutationContext.record_event,
        MutationContext.mark_dirty, MutationContext.invalidate_cache]
      exact upsertDirty_mem_pair db.dirty_issues a now
    · simp [add_dependency, mutate, hd, writeEvents, writeEvent, markDirtyAll,
        MutationContext.new, MutationContext.record_event, MutationContext.mark_dirty,
        MutationContext.invalidate_cache, EventType.as_str]
    · simp [add_dependency, mutate, hd, MutationContext.new,
        MutationContext.record_event, MutationContext.mark_dirty,
        MutationContext.invalidate_cache]

theorem C9_add_dependency_effects_witness :
    "a" ∈ (add_dependency "a" "b" "blocks" "actor" "t1" emptyDB).1.dirty_issues.map Prod.fst :=
  (C9_add_dependency_effects "a" "b" "blocks" "actor" "t1" emptyDB rfl).1

theorem C9_counterexample :
    (add_dependency "a" "b" "blocks" "actor" "t1" emptyDB).2 = .ok () ∧
    "b" ∉ (add_dependency "a" "b" "blocks" "actor" "t1" emptyDB).1.dirty_issues.map Prod.fst :=
  ⟨rfl, by decide⟩

/-- The §8 S3 fixture: three open issues with blocks-edges
`bd-001 → bd-002 → bd-003` (so a path `bd-001 → … → bd-003` exists over
non-tombstone blocks-edges). -/
def s3db : DB :=
  { emptyDB with
      issues := [{ baseRow with id := "bd-001" }, { baseRow with id := "bd-002" },
                 { baseRow with id := "bd-003" }],
      dependencies := [mkDep "bd-001" "bd-002", mkDep "bd-002" "bd-003"] }

/-- C2 is false on the code: in the S3 state, `dep add bd-003 blocks bd-001`
(which closes a cycle, since the path `bd-001 → bd-002 → bd-003` runs from
the new edge's target back to its source) succeeds and the edge is inserted;
a self-edge is likewise accepted. -/
theorem C2_counterexample :
    (add_dependency "bd-003" "bd-001" "blocks" "alice" "t1" s3db).2 = .ok () ∧
    ({ issue_id := "bd-003", depends_on_id := "bd-001", dep_type := "blocks",
       created_at := "t1", created_by := "alice" } : DepRow) ∈
      (add_dependency "bd-003" "bd-001" "blocks" "alice" "t1" s3db).1.dependencies ∧
    (add_dependency "bd-001" "bd-001" "blocks" "alice" "t1" s3db).2 = .ok () :=
  ⟨rfl, by decide, rfl⟩

/-- C2 (amended): `add_dependency` performs no self-edge or cycle validation;
the only rejection implemented is the duplicate edge (an existing
`(src, dst)` row), which fails with a constraint error and rolls back,
leaving the `dependencies` table unchanged.  Any non-duplicate edge —
self-edge or cycle-closing edge included — is inserted and the call
succeeds. -/
theorem C2_add_dependency_only_rejects_duplicates (a b t actor now : String) (db : DB) :
    ((∃ d ∈ db.dependencies, d.issue_id = a ∧ d.depends_on_id = b) →
      add_dependency a b t actor now db =
        (db, .error (.constraintViolation "UNIQUE constraint failed: dependencies"))) ∧
    ((¬ ∃ d ∈ db.dependencies, d.issue_id = a ∧ d.depends_on_id = b) →
      (add_dependency a b t actor now db).2 = .ok () ∧
      (add_dependency a b t actor now db).1.dependencies = db.dependencies ++
        [{ issue_id := a, depends_on_id := b, dep_type := t, created_at := now,
           created_by := actor }]) := by
  constructor
  · intro h
    have hd : (db.dependencies.any
        (fun d => d.issue_id == a && d.depends_on_id == b)) = true := by
      obtain ⟨d, hd1, hd2, hd3⟩ := h
      exact List.any_eq_true.mpr ⟨d, hd1, by simp [hd2, hd3]⟩
    simp [add_dependency, mutate, hd]
  · intro h
    have hd : ¬ (db.dependencies.any
        (fun d => d.issue_id == a && d.depends_on_id == b)) = true := by
      intro hc
      obtain ⟨d, hd1, hd2⟩ := List.any_eq_true.mp hc
      simp only [Bool.and_eq_true, beq_iff_eq] at hd2
      exact h ⟨d, hd1, hd2⟩
    constructor <;> simp [add_dependency, mutate, hd]

theorem C2_add_dependency_only_rejects_duplicates_witness :
    (add_dependency "a" "b" "blocks" "me" "t9" dbEdge =
      (dbEdge, .error (.constraintViolation "UNIQUE constraint failed: dependencies"))) ∧
    ((add_dependency "x" "y" "blocks" "me" "t9" emptyDB).2 = .ok ()) :=
  ⟨(C2_add_dependency_only_rejects_duplicates "a" "b" "blocks" "me" "t9" dbEdge).1
      ⟨mkDep "a" "b", by decide, by decide, by decide⟩,
   ((C2_add_dependency_only_rejects_duplicates "x" "y" "blocks" "me" "t9" emptyDB).2
      (by decide)).1⟩

theorem tombstoneRow_id (id actor reason ot now : String) (r : IssueRow) :
    (tombstoneRow id actor reason ot now r).id = r.id := by
  unfold tombstoneRow
  split <;> rfl

theorem find?_map_id_preserving (l : List IssueRow) (id : String)
    (g : IssueRow → IssueRow) (hg : ∀ r, (g r).id = r.id) :
    (l.map g).find? (fun r => r.id == id) = (l.find? (fun r => r.id == id)).map g := by
  induction l with
  | nil => rfl
  | cons r l ih =>
    simp only [List.map_cons, List.find?_cons]
    rw [hg r]
    by_cases hr : (r.id == id) = true
    · simp [hr]
    · simp [hr, ih]

/-- C5: deleting an existing issue tombstones exactly its row (status
`tombstone`, all four tombstone fields set, `original_type` preserving the
pre-deletion type), records a `deleted` event, requests cache invalidation
(the cache is empty at commit), and removes neither labels, comments nor
prior events; deleting a missing id fails with `IssueNotFound` and changes
nothing. -/
theorem C5_delete_issue_tombstones (rfc : String → Option String)
    (id actor reason now : String) (db : DB) :
    (get_issue rfc now db id = none →
      delete_issue rfc id actor reason now db = (db, .error (.issueNotFound id))) ∧
    (∀ issue, get_issue rfc now db id = some issue →
      (delete_issue rfc id actor reason now db).1.issues =
        db.issues.map (tombstoneRow id actor reason issue.issue_type.as_str now) ∧
      (delete_issue rfc id actor reason now db).1.events = db.events ++
        [{ id := db.events.length + 1, issue_id := id, event_type := "deleted",
           actor := actor, old_value := none, new_value := none,
           comment := some ("Deleted issue: " ++ reason), created_at := now }] ∧
      (delete_issue rfc id actor reason now db).1.blocked_issues_cache = [] ∧
      (delete_issue rfc id actor reason now db).1.labels = db.labels ∧
      (delete_issue rfc id actor reason now db).1.comments = db.comments ∧
      (∃ i, (delete_issue rfc id actor reason now db).2 = .ok i ∧
        i.status = Status.Tombstone ∧
        i.deleted_at = some (parse_datetime rfc now now) ∧
        i.deleted_by = some actor ∧
        i.delete_reason = some reason ∧
        i.original_type = some issue.issue_type.as_str)) := by
  constructor
  · intro hg
    simp [delete_issue, hg]
  · intro issue hg
    have hg' : (db.issues.find? (fun r => r.id == id)).map (issue_from_row rfc now)
        = some issue := hg
    obtain ⟨r0, hr0, hpr⟩ := Option.map_eq_some'.mp hg'
    subst hpr
    have hfm := find?_map_id_preserving db.issues id
      (tombstoneRow id actor reason (issue_from_row rfc now r0).issue_type.as_str now)
      (tombstoneRow_id id actor reason (issue_from_row rfc now r0).issue_type.as_str now)
    have hgr : tombstoneRow id actor reason (issue_from_row rfc now r0).issue_type.as_str
        now r0 =
        { r0 with status := some "tombstone", deleted_at := some now,
                  deleted_by := some actor, delete_reason := some reason,
                  original_type := some (issue_from_row rfc now r0).issue_type.as_str,
                  updated_at := now } := by
      unfold tombstoneRow
      rw [if_pos (List.find?_some hr0)]
    refine ⟨?_, ?_, ?_, ?_, ?_, ?_⟩ <;>
      simp only [delete_issue, hg, mutate, MutationContext.new,
        MutationContext.record_event, MutationContext.mark_dirty,
        MutationContext.invalidate_cache, get_issue, hfm, hr0, Option.map_some',
        List.nil_append, if_true]
    all_goals try rw [hgr]
    all_goals
      simp [writeEvents, writeEvent, EventType.as_str, issue_from_row,
        parse_status, Status.fromStr, Status.default, parse_datetime]

theorem C5_delete_issue_tombstones_witness :
    (delete_issue rfc0 "nope" "me" "bye" "t1" dbOne = (dbOne, .error (.issueNotFound "nope"))) ∧
    ((delete_issue rfc0 "bd-001" "me" "bye" "t1" dbOne).1.labels = dbOne.labels) ∧
    (∃ i, (delete_issue rfc0 "bd-001" "me" "bye" "t1" dbOne).2 = .ok i ∧
      i.status = Status.Tombstone ∧
      i.deleted_at = some (parse_datetime rfc0 "t1" "t1") ∧
      i.deleted_by = some "me" ∧
      i.delete_reason = some "bye" ∧
      i.original_type = some (issue_from_row rfc0 "t1" baseRow).issue_type.as_str) :=
  ⟨(C5_delete_issue_tombstones rfc0 "nope" "me" "bye" "t1" dbOne).1 rfl,
   (((C5_delete_issue_tombstones rfc0 "bd-001" "me" "bye" "t1" dbOne).2
      (issue_from_row rfc0 "t1" baseRow) rfl).2.2.2).1,
   (((C5_delete_issue_tombstones rfc0 "bd-001" "me" "bye" "t1" dbOne).2
      (issue_from_row rfc0 "t1" baseRow) rfl).2.2.2).2.2⟩

/-- C10: decoding a stored row is total in the face of malformed data: an
unrecognised status string falls back to the default status (`open`), an
unrecognised type string to the default type (`task`), a `NULL` priority to
2, an unparseable timestamp to the current time, and `get_issue` therefore
returns a decoded issue for every row that exists. -/
theorem C10_issue_from_row_total (rfc : String → Option String) (now : String) :
    (∀ s, Status.fromStr s = none → parse_status (some s) = Status.Open) ∧
    (parse_status none = Status.Open) ∧
    (∀ s, IssueType.fromStr s = none → parse_issue_type (some s) = IssueType.Task) ∧
    (∀ r : IssueRow, r.priority = none → (issue_from_row rfc now r).priority = 2) ∧
    (∀ s, rfc s = none → parse_datetime rfc now s = now) ∧
    (∀ r : IssueRow, rfc r.created_at = none → (issue_from_row rfc now r).created_at = now) ∧
    (∀ (db : DB) (id : String) (r : IssueRow),
      db.issues.find? (fun x => x.id == id) = some r →
      get_issue rfc now db id = some (issue_from_row rfc now r)) := by
  refine ⟨?_, rfl, ?_, ?_, ?_, ?_, ?_⟩
  · intro s h
    simp [parse_status, h, Status.default]
  · intro s h
    simp [parse_issue_type, h, IssueType.default]
  · intro r h
    simp [issue_from_row, h]
  · intro s h
    simp [parse_datetime, h]
  · intro r h
    simp [issue_from_row, parse_datetime, h]
  · intro db id r h
    simp [get_issue, h]

/-- A stored row with an unknown status, unknown type, `NULL` priority and an
unparseable `created_at`. -/
def weirdRow : IssueRow :=
  { baseRow with status := some "bogus", issue_type := some "mystery",
                 priority := none, created_at := "not-a-date" }

/-- A database holding only `weirdRow`. -/
def dbWeird : DB := { emptyDB with issues := [weirdRow] }

theorem C10_issue_from_row_total_witness :
    parse_status (some "bogus") = Status.Open ∧
    parse_issue_type (some "mystery") = IssueType.Task ∧
    (issue_from_row rfc0 "tNow" weirdRow).priority = 2 ∧
    (issue_from_row rfc0 "tNow" weirdRow).created_at = "tNow" ∧
    get_issue rfc0 "tNow" dbWeird "bd-001" = some (issue_from_row rfc0 "tNow" weirdRow) :=
  ⟨(C10_issue_from_row_total rfc0 "tNow").1 "bogus" (by decide),
   (C10_issue_from_row_total rfc0 "tNow").2.2.1 "mystery" (by decide),
   (C10_issue_from_row_total rfc0 "tNow").2.2.2.1 weirdRow (by decide),
   (C10_issue_from_row_total rfc0 "tNow").2.2.2.2.2.1 weirdRow rfl,
   (C10_issue_from_row_total rfc0 "tNow").2.2.2.2.2.2 dbWeird "bd-001" weirdRow (by decide)⟩

theorem insertSorted_cons (x y : IssueRow) (ys : List IssueRow) :
    insertSorted x (y :: ys) =
      if rowLE x y then x :: y :: ys else y :: insertSorted x ys := rfl

theorem lexLe_total (x y : List Char) : lexLe x y = true ∨ lexLe y x = true := by
  induction x generalizing y with
  | nil => left; rfl
  | cons a as ih =>
    cases y with
    | nil => right; rfl
    | cons b bs =>
      by_cases hab : a.toNat < b.toNat
      · left; simp [lexLe, hab]
      · by_cases hba : b.toNat < a.toNat
        · right; simp [lexLe, hba]
        · have he : a.toNat = b.toNat := by omega
          rcases ih bs with h | h
          · left; simp [lexLe, he, h]
          · right; simp [lexLe, he.symm, h]

theorem rowLE_total (a b : IssueRow) : rowLE a b = true ∨ rowLE b a = true := by
  unfold rowLE
  by_cases h1 : optIntLt a.priority b.priority = true
  · left; simp [h1]
  · by_cases h2 : optIntLt b.priority a.priority = true
    · right; simp [h2]
    · have he : a.priority = b.priority := by
        cases ha : a.priority <;> cases hb : b.priority <;>
          · simp_all [optIntLt]
            try omega
      rcases lexLe_total b.created_at.data a.created_at.data with h | h
      · left; simp [he, h]
      · right; simp [he, h]

theorem mem_insertSorted (x a : IssueRow) (l : List IssueRow) :
    a ∈ insertSorted x l ↔ a = x ∨ a ∈ l := by
  induction l with
  | nil => simp [insertSorted]
  | cons y ys ih =>
    rw [insertSorted_cons]
    by_cases hxy : rowLE x y = true
    · rw [if_pos hxy]
      simp
    · rw [if_neg hxy]
      simp [ih]
      tauto

theorem mem_sortRows (a : IssueRow) (l : List IssueRow) : a ∈ sortRows l ↔ a ∈ l := by
  induction l with
  | nil => simp [sortRows]
  | cons x xs ih => simp [sortRows, mem_insertSorted, ih]

theorem chain'_insertSorted (x : IssueRow) (l : List IssueRow)
    (h : List.Chain' (fun a b => rowLE a b = true) l) :
    List.Chain' (fun a b => rowLE a b = true) (insertSorted x l) := by
  induction l with
  | nil => simp [insertSorted]
  | cons y ys ih =>
    rw [insertSorted_cons]
    by_cases hxy : rowLE x y = true
    · rw [if_pos hxy]
      exact List.chain'_cons.mpr ⟨hxy, h⟩
    · rw [if_neg hxy]
      have hyx : rowLE y x = true := (rowLE_total x y).resolve_left hxy
      cases ys with
      | nil =>
        simp [insertSorted, List.chain'_cons, hyx]
      | cons z zs =>
        have hch := List.chain'_cons.mp h
        have ih2 := ih hch.2
        rw [insertSorted_cons] at ih2 ⊢
        by_cases hxz : rowLE x z = true
        · rw [if_pos hxz]
          exact List.chain'_cons.mpr ⟨hyx, List.chain'_cons.mpr ⟨hxz, hch.2⟩⟩
        · rw [if_neg hxz] at ih2 ⊢
          exact List.chain'_cons.mpr ⟨hch.1, ih2⟩

theorem chain'_sortRows (l : List IssueRow) :
    List.Chain' (fun a b => rowLE a b = true) (sortRows l) := by
  induction l with
  | nil => simp [sortRows]
  | cons x xs ih => exact chain'_insertSorted x (sortRows xs) ih

/-- The order the spec's words describe for the default sort: strictly
smaller priority first (SQL `NULL` before any number in ASC order), and for
equal priorities the later `created_at` first. -/
def priorityAscCreatedDesc (a b : IssueRow) : Prop :=
  optIntLt a.priority b.priority = true ∨
    (a.priority = b.priority ∧ lexLe b.created_at.data a.created_at.data = true)

theorem rowLE_iff (a b : IssueRow) :
    rowLE a b = true ↔ priorityAscCreatedDesc a b := by
  simp [rowLE, priorityAscCreatedDesc, Bool.or_eq_true, Bool.and_eq_true]

theorem parse_status_closed {s : String} (h : parse_status (some s) = Status.Closed) :
    s = "closed" := by
  unfold parse_status Status.fromStr Status.default at h
  simp only [Option.some_bind] at h
  split_ifs at h with h1 h2 h3 h4 h5 <;> simp_all

theorem parse_status_tombstone {s : String}
    (h : parse_status (some s) = Status.Tombstone) : s = "tombstone" := by
  unfold parse_status Status.fromStr Status.default at h
  simp only [Option.some_bind] at h
  split_ifs at h with h1 h2 h3 h4 h5 <;> simp_all

theorem passes_default_status (r : IssueRow)
    (h : passesFilters ListFilters.default r = true) :
    ∃ s, r.status = some s ∧ s ≠ "closed" ∧ s ≠ "tombstone" := by
  rcases hs : r.status with _ | s
  · simp [passesFilters, ListFilters.default, hs] at h
  · simp [passesFilters, ListFilters.default, hs] at h
    exact ⟨s, rfl, by tauto, by tauto⟩

theorem passes_default_template (rfc : String → Option String) (now : String)
    (r : IssueRow) (h : passesFilters ListFilters.default r = true) :
    (issue_from_row rfc now r).is_template = false := by
  simp [passesFilters, ListFilters.default] at h
  have ht : r.is_template = some 0 ∨ r.is_template = none := by tauto
  rcases ht with h0 | h0 <;> simp [issue_from_row, h0]

/-- C6 (amended): with default filters, `list_issues` returns only issues
whose stored status is neither `closed` nor `tombstone` and whose template
flag is off, ordered by priority ascending then `created_at` descending; a
limit of 0 means unlimited, and an unset limit — which is what
`ListFilters::default()` carries — is also unlimited: `list_issues` itself
applies no default limit of 50. -/
theorem C6_list_issues_default (rfc : String → Option String) (now : String) (db : DB) :
    (∀ i ∈ list_issues rfc now db ListFilters.default,
      i.status ≠ Status.Closed ∧ i.status ≠ Status.Tombstone ∧ i.is_template = false) ∧
    List.Chain' priorityAscCreatedDesc (listRows db ListFilters.default) ∧
    (∀ f : ListFilters,
      listRows db { f with limit := some 0 } = listRows db { f with limit := none }) ∧
    listRows db ListFilters.default =
      sortRows (db.issues.filter (passesFilters ListFilters.default)) := by
  refine ⟨?_, ?_, ?_, rfl⟩
  · intro i hi
    obtain ⟨r, hr, rfl⟩ := List.mem_map.mp hi
    have hrf : r ∈ db.issues.filter (passesFilters ListFilters.default) :=
      (mem_sortRows r _).mp hr
    have hpass : passesFilters ListFilters.default r = true :=
      (List.mem_filter.mp hrf).2
    obtain ⟨s, hs, hsc, hst⟩ := passes_default_status r hpass
    refine ⟨?_, ?_, passes_default_template rfc now r hpass⟩
    · intro hcl
      have : parse_status r.status = Status.Closed := hcl
      rw [hs] at this
      exact hsc (parse_status_closed this)
    · intro htb
      have : parse_status r.status = Status.Tombstone := htb
      rw [hs] at this
      exact hst (parse_status_tombstone this)
  · exact (chain'_sortRows _).imp (fun a b hab => (rowLE_iff a b).mp hab)
  · intro f
    rfl

/-- Rows distinguished only by a one-character id suffix, used to populate a
database with more than 50 matching issues. -/
def mkManyRow (i : Nat) : IssueRow := { baseRow with id := ⟨['m', Char.ofNat (65 + i)]⟩ }

/-- A database with 51 open, non-template issues. -/
def dbMany : DB := { emptyDB with issues := (List.range 51).map mkManyRow }

/-- C6 is wrong about the default limit: `ListFilters::default()` has
`limit = None`, which `list_issues` treats as unlimited, so a database with
51 matching issues yields 51 results, not 50. -/
theorem C6_counterexample :
    dbMany.issues.length = 51 ∧
    (list_issues rfc0 "t0" dbMany ListFilters.default).length = 51 := by
  constructor
  · decide
  · decide

theorem C6_list_issues_default_witness :
    ((issue_from_row rfc0 "t0" baseRow).status ≠ Status.Closed ∧
     (issue_from_row rfc0 "t0" baseRow).status ≠ Status.Tombstone ∧
     (issue_from_row rfc0 "t0" baseRow).is_template = false) ∧
    listRows dbOne { ListFilters.default with limit := some 0 } =
      listRows dbOne { ListFilters.default with limit := none } :=
  ⟨(C6_list_issues_default rfc0 "t0" dbOne).1 (issue_from_row rfc0 "t0" baseRow) (by decide),
   (C6_list_issues_default rfc0 "t0" dbOne).2.2.1 ListFilters.default⟩

theorem suffixAny_iff (f : List Char → Bool) (hs : List Char) :
    suffixAny f hs = true ↔ ∃ a b, hs = a ++ b ∧ f b = true := by
  induction hs with
  | nil =>
    constructor
    · intro h
      exact ⟨[], [], rfl, h⟩
    · rintro ⟨a, b, hab, hf⟩
      rcases List.append_eq_nil.mp hab.symm with ⟨ha, hb⟩
      subst hb
      exact hf
  | cons h t ih =>
    show (f (h :: t) || suffixAny f t) = true ↔ _
    rw [Bool.or_eq_true, ih]
    constructor
    · rintro (h1 | ⟨a, b, hab, hf⟩)
      · exact ⟨[], h :: t, rfl, h1⟩
      · exact ⟨h :: a, b, by simp [hab], hf⟩
    · rintro ⟨a, b, hab, hf⟩
      cases a with
      | nil => exact Or.inl (by simpa using hab ▸ hf)
      | cons x xs =>
        simp only [List.cons_append, List.cons.injEq] at hab
        exact Or.inr ⟨xs, b, hab.2, hf⟩

/-- Wildcard-free character lists: no `%` and no `_`. -/
def noWildL : List Char → Bool
  | [] => true
  | c :: cs => !(c == '%') && !(c == '_') && noWildL cs

/-- Wildcard-free query strings: `LIKE` treats every character literally
(ASCII-case-insensitively), so `%q%` means exactly "contains q". -/
def noWildcards (q : String) : Bool := noWildL q.data

theorem likeM_pct (ps hs : List Char) :
    likeM ('%' :: ps) hs = suffixAny (likeM ps) hs := by
  simp [likeM]

theorem likeM_endpct (q : List Char) (hw : noWildL q = true) (hs : List Char) :
    likeM (q ++ ['%']) hs = true ↔
      ∃ a b, hs = a ++ b ∧ a.map lowerC = q.map lowerC := by
  induction q generalizing hs with
  | nil =>
    constructor
    · intro _
      exact ⟨[], hs, rfl, rfl⟩
    · intro _
      have hx : ∃ a b, hs = a ++ b ∧ likeM [] b = true := ⟨hs, [], by simp, rfl⟩
      show likeM ('%' :: []) hs = true
      rw [likeM_pct, suffixAny_iff]
      exact hx
  | cons c q' ih =>
    simp only [noWildL, Bool.and_eq_true, Bool.not_eq_true'] at hw
    obtain ⟨⟨h1, h2⟩, h3⟩ := hw
    cases hs with
    | nil =>
      simp only [List.cons_append, likeM, h1, h2, Bool.false_eq_true, if_false]
      constructor
      · intro hF
        exact absurd hF (by simp)
      · rintro ⟨a, b, hab, ham⟩
        rcases List.append_eq_nil.mp hab.symm with ⟨ha, hb⟩
        subst ha
        simp at ham
    | cons h t =>
      simp only [List.cons_append, likeM, h1, h2, Bool.false_eq_true, if_false,
        Bool.and_eq_true, List.append_eq]
      rw [ih h3]
      constructor
      · rintro ⟨hch, a, b, hab, ham⟩
        refine ⟨h :: a, b, by simp [hab], ?_⟩
        simp only [List.map_cons, List.cons.injEq]
        exact ⟨(beq_iff_eq.mp hch).symm, ham⟩
      · rintro ⟨a, b, hab, ham⟩
        cases a with
        | nil => simp at ham
        | cons x xs =>
          simp only [List.cons_append, List.cons.injEq] at hab
          obtain ⟨hhx, htx⟩ := hab
          simp only [List.map_cons, List.cons.injEq] at ham
          obtain ⟨hx, hxs⟩ := ham
          refine ⟨?_, xs, b, htx, hxs⟩
          rw [beq_iff_eq, hhx, hx]

/-- The claim-side predicate, following the spec's words: the query is an
(ASCII-)case-insensitive substring of `s`. -/
def specSubstrCI (q s : String) : Prop :=
  (q.data.map lowerC) <:+: (s.data.map lowerC)

instance (q s : String) : Decidable (specSubstrCI q s) :=
  inferInstanceAs (Decidable ((q.data.map lowerC) <:+: (s.data.map lowerC)))

theorem likeStr_iff {q : String} (hw : noWildcards q = true) (s : String) :
    likeStr q s = true ↔ specSubstrCI q s := by
  unfold likeStr specSubstrCI
  rw [show ('%' :: q.data ++ ['%']) = '%' :: (q.data ++ ['%']) from rfl,
    likeM_pct, suffixAny_iff]
  constructor
  · rintro ⟨x, y, hxy, hy⟩
    obtain ⟨a, b, hab, ham⟩ := (likeM_endpct q.data hw y).mp hy
    refine ⟨x.map lowerC, b.map lowerC, ?_⟩
    rw [hxy, hab]
    simp [List.map_append, List.append_assoc, ham]
  · rintro ⟨u, v, huv⟩
    have h2 : (s.data).map lowerC = u ++ ((q.data.map lowerC) ++ v) := by
      rw [← huv]
      simp [List.append_assoc]
    obtain ⟨x, r, hxr, hxu, hrv⟩ := List.map_eq_append_iff.mp h2
    obtain ⟨a, b, hab2, ham, hbm⟩ := List.map_eq_append_iff.mp hrv
    exact ⟨x, r, hxr, (likeM_endpct q.data hw r).mpr ⟨a, b, hab2, ham⟩⟩

/-- The spec's description of a search hit: the query is a case-insensitive
substring of the title, the description, or the id (a `NULL` description
never matches). -/
def specQueryMatch (q : String) (r : IssueRow) : Prop :=
  specSubstrCI q r.title ∨
    (match r.description with | some d => specSubstrCI q d | none => False) ∨
    specSubstrCI q r.id

theorem searchMatch_iff {t : String} (hw : noWildcards t = true) (r : IssueRow) :
    searchMatch t r = true ↔ specQueryMatch t r := by
  unfold searchMatch specQueryMatch
  rcases hd : r.description with _ | d <;>
    · simp [Bool.or_eq_true, likeStr_iff hw]
      try tauto

/-- C7 (amended): `search_issues` first trims the query; an empty (or
whitespace-only) query returns the empty list.  For a non-empty trimmed
query containing no `LIKE` wildcard (`%`, `_`) and an unlimited filter set,
the returned rows are exactly the stored issues passing the filters for
which the trimmed query is an ASCII-case-insensitive substring of the title,
the description, or the id. -/
theorem C7_search_issues (rfc : String → Option String) (now : String) (db : DB)
    (q : String) (filters : ListFilters)
    (hw : noWildcards (trimWS q) = true)
    (hlim : filters.limit = none) :
    (trimWS q = "" → search_issues rfc now db q filters = []) ∧
    (trimWS q ≠ "" → ∀ r : IssueRow,
      (r ∈ searchRows db q filters ↔
        r ∈ db.issues ∧ specQueryMatch (trimWS q) r ∧
          passesFilters filters r = true)) := by
  constructor
  · intro he
    simp [search_issues, searchRows, he]
  · intro hne r
    have hb : ¬ ((trimWS q == "") = true) := by simpa using hne
    unfold searchRows
    rw [if_neg hb, hlim]
    show r ∈ sortRows (db.issues.filter _) ↔ _
    rw [mem_sortRows, List.mem_filter, Bool.and_eq_true]
    exact and_congr_right (fun _ => and_congr_left (fun _ => searchMatch_iff hw r))

theorem C7_counterexample :
    search_issues rfc0 "t0" dbOne "%" ListFilters.default
      = [issue_from_row rfc0 "t0" baseRow] ∧
    baseRow.description = none ∧
    ¬ specSubstrCI "%" baseRow.title ∧
    ¬ specSubstrCI "%" baseRow.id :=
  ⟨rfl, rfl, by decide, by decide⟩

theorem C7_search_issues_witness :
    (search_issues rfc0 "t0" dbOne "   " ListFilters.default = []) ∧
    (baseRow ∈ searchRows dbOne "LO" ListFilters.default ↔
      baseRow ∈ dbOne.issues ∧ specQueryMatch (trimWS "LO") baseRow ∧
        passesFilters ListFilters.default baseRow = true) :=
  ⟨(C7_search_issues rfc0 "t0" dbOne "   " ListFilters.default (by decide) rfl).1
     (by decide),
   (C7_search_issues rfc0 "t0" dbOne "LO" ListFilters.default (by decide) rfl).2
     (by decide) baseRow⟩
